import Mathlib

/-!
Verification of the stock-news analysis components of the `stock_ai_analyzer`
repository.  Python source functions are embedded shallowly: texts become
`List Char`, numeric scores become exact rationals (`ℚ`), machine integers
become `ℕ`/`ℤ`, database rows become explicit lists of structures, and
functions that may produce no result return `Option`.
-/

namespace StockAI

/-- Lowercase a character list; mirrors Python `str.lower()` on the ASCII
texts handled by the analyzers. -/
def lowerStr (s : List Char) : List Char := s.map Char.toLower

/-- Boolean substring test; mirrors the Python `needle in haystack` operator
on strings. -/
def containsSub (needle : List Char) : List Char → Bool
  | [] => needle.isEmpty
  | c :: rest => needle.isPrefixOf (c :: rest) || containsSub needle rest

/-- Positive financial-news keywords of
`NewsAnalyzer._analyze_sentiment_rules` (src/analysis/ai_analyzer.py). -/
def positiveWords : List (List Char) :=
  ["profit", "growth", "gain", "rise", "up", "increase", "bullish", "positive",
   "strong", "beat", "exceed", "outperform", "surge", "rally", "boom", "recovery",
   "dividend", "bonus", "expansion", "merger", "acquisition", "success", "achieve"
  ].map String.toList

/-- Negative financial-news keywords of
`NewsAnalyzer._analyze_sentiment_rules` (src/analysis/ai_analyzer.py). -/
def negativeWords : List (List Char) :=
  ["loss", "decline", "fall", "down", "decrease", "bearish", "negative", "weak",
   "miss", "fail", "underperform", "crash", "drop", "plunge", "concern", "worry",
   "debt", "liability", "penalty", "investigation", "fraud", "scandal", "crisis"
  ].map String.toList

/-- Number of positive keywords occurring in the (already lowered) text. -/
def posCount (textLower : List Char) : ℕ :=
  positiveWords.countP (fun w => containsSub w textLower)

/-- Number of negative keywords occurring in the (already lowered) text. -/
def negCount (textLower : List Char) : ℕ :=
  negativeWords.countP (fun w => containsSub w textLower)

/-- Embedding of `NewsAnalyzer._analyze_sentiment_rules`
(src/analysis/ai_analyzer.py lines 97-125): lower-case the text, count
positive/negative keyword hits, and return the sentiment label with its
confidence. -/
def analyzeSentimentRules (text : List Char) : String × ℚ :=
  if posCount (lowerStr text) > negCount (lowerStr text) then
    ("POSITIVE",
      min ((posCount (lowerStr text) : ℚ) /
        ((posCount (lowerStr text) : ℚ) + (negCount (lowerStr text) : ℚ) + 1)) (4/5))
  else if negCount (lowerStr text) > posCount (lowerStr text) then
    ("NEGATIVE",
      min ((negCount (lowerStr text) : ℚ) /
        ((posCount (lowerStr text) : ℚ) + (negCount (lowerStr text) : ℚ) + 1)) (4/5))
  else ("NEUTRAL", 1/2)

/-- An analyzed article as consumed by `RecommendationEngine` (a Python dict
in the source): sentiment label, sentiment score, impact level, category,
optional database id and the list of mentioned stock symbols. -/
structure ArticleA where
  sentiment : String
  sentimentScore : ℚ
  impactLevel : String
  category : String
  articleId : Option ℕ
  mentionedStocks : List String
deriving DecidableEq

/-- Impact weight of one article
(`RecommendationEngine._analyze_stock_sentiment`, src/analysis/ai_analyzer.py
lines 416-422): 3 for HIGH, 2 for MEDIUM, 1 otherwise. -/
def weight (a : ArticleA) : ℕ :=
  if a.impactLevel = "HIGH" then 3 else if a.impactLevel = "MEDIUM" then 2 else 1

/-- Accumulated `positive_weight`: sum of `weight * sentiment_score` over
POSITIVE articles. -/
def positiveWeight (articles : List ArticleA) : ℚ :=
  (articles.map fun a =>
    if a.sentiment = "POSITIVE" then (weight a : ℚ) * a.sentimentScore else 0).sum

/-- Accumulated `negative_weight`: sum of `weight * sentiment_score` over
NEGATIVE articles. -/
def negativeWeight (articles : List ArticleA) : ℚ :=
  (articles.map fun a =>
    if a.sentiment = "NEGATIVE" then (weight a : ℚ) * a.sentimentScore else 0).sum

/-- Accumulated `total_impact_weight`: sum of the impact weights. -/
def totalImpactWeight (articles : List ArticleA) : ℕ :=
  (articles.map weight).sum

/-- `net_sentiment = (positive_weight - negative_weight) / total_impact_weight`
(src/analysis/ai_analyzer.py line 440). -/
def netSentiment (articles : List ArticleA) : ℚ :=
  (positiveWeight articles - negativeWeight articles) / (totalImpactWeight articles : ℚ)

/-- Recommendation type chosen from the net sentiment
(src/analysis/ai_analyzer.py lines 443-456): the `HOLD` default survives only
when neither elif branch fires. -/
def codeAction (x : ℚ) : String :=
  if x > 3/10 then (if x > 3/5 then "BUY" else "WATCH")
  else if x < -(3/10) then "SELL"
  else "HOLD"

/-- Risk level chosen from the net sentiment (same branch structure). -/
def codeRisk (x : ℚ) : String :=
  if x > 3/10 then (if x > 7/10 then "LOW" else "MEDIUM")
  else if x < -(3/10) then "HIGH"
  else "MEDIUM"

/-- Confidence chosen from the net sentiment (same branch structure; the
initial `confidence = 50` is overwritten on every path). -/
def codeConfidence (x : ℚ) : ℚ :=
  if x > 3/10 then min (80 + x * 20) 95
  else if x < -(3/10) then min (70 + |x| * 20) 90
  else 40 + |x| * 20

/-- Append a key if not already present; used to model Python first-occurrence
collection order (dict keys / de-duplicated lists). -/
def insertIfNew (acc : List String) (s : String) : List String :=
  if s ∈ acc then acc else acc ++ [s]

/-- First-occurrence de-duplication.  The source builds `list(set(key_factors))`,
whose order CPython leaves unspecified; the claims never touch that order. -/
def dedupFirst (l : List String) : List String := l.foldl insertIfNew []

/-- A stock recommendation record as returned by
`RecommendationEngine._analyze_stock_sentiment` (reasoning text omitted). -/
structure StockRec where
  stockSymbol : String
  recommendation : String
  riskLevel : String
  confidenceLevel : ℚ
  keyFactors : List String
  relatedArticles : List ℕ
  netSentimentScore : ℚ
  totalArticles : ℕ
  highImpactArticles : ℕ
deriving DecidableEq

/-- Embedding of `RecommendationEngine._analyze_stock_sentiment`
(src/analysis/ai_analyzer.py lines 398-474): `None` for an empty article list
or zero total impact weight, otherwise the recommendation record. -/
def analyzeStockSentiment (stockSymbol : String) (articles : List ArticleA) :
    Option StockRec :=
  if articles = [] then none
  else if totalImpactWeight articles = 0 then none
  else some
    { stockSymbol := stockSymbol
      recommendation := codeAction (netSentiment articles)
      riskLevel := codeRisk (netSentiment articles)
      confidenceLevel := codeConfidence (netSentiment articles)
      keyFactors := dedupFirst (articles.filterMap fun a =>
        if a.category = "OTHER" then none else some a.category)
      relatedArticles := articles.filterMap (fun a => a.articleId)
      netSentimentScore := netSentiment articles
      totalArticles := articles.length
      highImpactArticles := (articles.filter fun a => a.impactLevel = "HIGH").length }

/-- The distinct stock symbols mentioned by the articles, in first-occurrence
order — the keys of the `stock_news` dict built by
`RecommendationEngine.generate_stock_recommendations`
(src/analysis/ai_analyzer.py lines 376-382). -/
def stockKeys (articles : List ArticleA) : List String :=
  articles.foldl (fun acc a => a.mentionedStocks.foldl insertIfNew acc) []

/-- Embedding of `RecommendationEngine.generate_stock_recommendations`
(src/analysis/ai_analyzer.py lines 370-396): group articles by mentioned
stock, analyze each group, and keep only the non-`None` recommendations. -/
def generateStockRecommendations (articles : List ArticleA) : List StockRec :=
  (stockKeys articles).filterMap fun s =>
    analyzeStockSentiment s (articles.filter fun a => s ∈ a.mentionedStocks)

/-- Action breakpoints exactly as the spec words them: `> 0.6` BUY,
`0.3 < x ≤ 0.6` WATCH, `-0.3 ≤ x ≤ 0.3` HOLD, `< -0.3` SELL (each test is
taken in turn, so the earlier bounds delimit the later bands). -/
def specAction (x : ℚ) : String :=
  if x > 3/5 then "BUY"
  else if x > 3/10 then "WATCH"
  else if x ≥ -(3/10) then "HOLD"
  else "SELL"

/-- Risk words of the spec: LOW if `net_sentiment > 0.7`, MEDIUM elsewhere in
the BUY/WATCH band, HIGH for SELL, MEDIUM for HOLD. -/
def specRisk (x : ℚ) : String :=
  if x > 7/10 then "LOW"
  else if x > 3/10 then "MEDIUM"
  else if x < -(3/10) then "HIGH"
  else "MEDIUM"

/-- Confidence words of the spec: `min(80 + x*20, 95)` above 0.3,
`min(70 + |x|*20, 90)` below -0.3, else `40 + |x|*20`. -/
def specConfidence (x : ℚ) : ℚ :=
  if x > 3/10 then min (80 + x * 20) 95
  else if x < -(3/10) then min (70 + |x| * 20) 90
  else 40 + |x| * 20

/-- First TCS article of the spec's worked example: POSITIVE 0.8 HIGH. -/
def tcsArticle1 : ArticleA :=
  { sentiment := "POSITIVE", sentimentScore := 4/5, impactLevel := "HIGH",
    category := "OTHER", articleId := none, mentionedStocks := ["TCS"] }

/-- Second TCS article of the spec's worked example: POSITIVE 0.6 MEDIUM. -/
def tcsArticle2 : ArticleA :=
  { sentiment := "POSITIVE", sentimentScore := 3/5, impactLevel := "MEDIUM",
    category := "OTHER", articleId := none, mentionedStocks := ["TCS"] }

/-- High-impact keywords of `NewsAnalyzer.assess_impact_level`
(src/analysis/ai_analyzer.py lines 239-243). -/
def highImpactKeywords : List (List Char) :=
  ["breaking", "major", "significant", "massive", "huge", "unprecedented",
   "crisis", "emergency", "investigation", "fraud", "scandal", "crash",
   "merger", "acquisition", "deal", "ipo", "listing"].map String.toList

/-- Medium-impact keywords of `NewsAnalyzer.assess_impact_level`
(src/analysis/ai_analyzer.py lines 246-249). -/
def mediumImpactKeywords : List (List Char) :=
  ["growth", "decline", "increase", "decrease", "profit", "loss",
   "quarterly", "results", "earnings", "guidance", "outlook"].map String.toList

/-- The fixed set of major tickers (src/analysis/ai_analyzer.py line 261). -/
def majorStocks : List String := ["RELIANCE", "TCS", "HDFCBANK", "INFY", "ITC"]

/-- The lower-cased `f"{title} {content}"` the impact classifier scans. -/
def impactText (title content : List Char) : List Char :=
  lowerStr (title ++ ' ' :: content)

/-- One keyword-loop step of the impact score: add `points` when the keyword
occurs in the text. -/
def addKeywordScore (text : List Char) (points : ℕ) (sc : ℕ) (k : List Char) : ℕ :=
  if containsSub k text then sc + points else sc

/-- Additive impact score of `NewsAnalyzer.assess_impact_level`
(src/analysis/ai_analyzer.py lines 236-267): +3 per high-impact keyword
present, +1 per medium-impact keyword, +2 when a major ticker is mentioned,
+1 when more than 3 stocks are mentioned. -/
def impactScore (title content : List Char) (mentionedStocks : List String) : ℕ :=
  let text := impactText title content
  let s1 := highImpactKeywords.foldl (addKeywordScore text 3) 0
  let s2 := mediumImpactKeywords.foldl (addKeywordScore text 1) s1
  let s3 := if majorStocks.any (fun s => mentionedStocks.contains s) then s2 + 2 else s2
  if mentionedStocks.length > 3 then s3 + 1 else s3

/-- Impact level and confidence from the score
(src/analysis/ai_analyzer.py lines 269-275). -/
def assessImpactLevel (title content : List Char) (mentionedStocks : List String) :
    String × ℚ :=
  if impactScore title content mentionedStocks ≥ 5 then
    ("HIGH", min ((impactScore title content mentionedStocks : ℚ) / 10) 1)
  else if impactScore title content mentionedStocks ≥ 2 then
    ("MEDIUM", min ((impactScore title content mentionedStocks : ℚ) / 7) 1)
  else
    ("LOW", max ((impactScore title content mentionedStocks : ℚ) / 5) (1/5))

/-- Python `content.split('. ')`: split on non-overlapping occurrences of
the two-character separator, scanning left to right. -/
def splitDotSpace : List Char → List (List Char)
  | [] => [[]]
  | [c] => [[c]]
  | c :: d :: rest =>
    if c = '.' ∧ d = ' ' then [] :: splitDotSpace rest
    else
      match splitDotSpace (d :: rest) with
      | [] => [[c]]
      | h :: t => (c :: h) :: t

/-- Default (non-AI) branch of `NewsAnalyzer.generate_summary`
(src/analysis/ai_analyzer.py lines 302-308): with at least two `'. '`-split
parts, join the first two with `'. '` and append `'.'`; otherwise the first
200 characters followed by `'...'`. -/
def generateSummaryDefault (content : List Char) : List Char :=
  if (splitDotSpace content).length ≥ 2 then
    List.intercalate ['.', ' '] ((splitDotSpace content).take 2) ++ ['.']
  else content.take 200 ++ "...".toList

/-- The long two-sentence body used against the truncation claim: one
thousand characters, a separator, then another thousand. -/
def longBody : List Char :=
  List.replicate 1000 'a' ++ '.' :: ' ' :: List.replicate 1000 'b'

/-- P&L adjustment step of `PortfolioAnalyzer._generate_ai_recommendation`
(src/portfolio/portfolio_analyzer.py lines 393-403): gains above 20% add one
point to `sell_score`; losses beyond 10% add one point to `buy_score` when it
leads and to `sell_score` otherwise. -/
def pnlAdjust (pnlPercent : ℚ) (buyScore sellScore : ℕ) : ℕ × ℕ :=
  if pnlPercent > 20 then (buyScore, sellScore + 1)
  else if pnlPercent < -10 then
    (if buyScore > sellScore then (buyScore + 1, sellScore)
     else (buyScore, sellScore + 1))
  else (buyScore, sellScore)

/-- Score accumulation of `PortfolioAnalyzer._generate_ai_recommendation`
(src/portfolio/portfolio_analyzer.py lines 365-403): sentiment, trend,
momentum patterns and valuation each contribute to `buy_score`/`sell_score`,
then the P&L adjustment is applied. -/
def portfolioScores (sentimentScore : ℚ) (trend : String) (patterns : List String)
    (valuationStatus : String) (pnlPercent : ℚ) : ℕ × ℕ :=
  pnlAdjust pnlPercent
    ((if sentimentScore > 3/10 then 2 else 0) +
      (if trend = "UPTREND" then 2 else 0) +
      (if "BULLISH_MOMENTUM" ∈ patterns then 1 else 0) +
      (if valuationStatus = "UNDERVALUED" then 2 else 0))
    ((if sentimentScore < -(3/10) then 2 else 0) +
      (if trend = "DOWNTREND" then 2 else 0) +
      (if "BEARISH_MOMENTUM" ∈ patterns then 1 else 0) +
      (if valuationStatus = "OVERVALUED" then 2 else 0))

/-- Action choice (src/portfolio/portfolio_analyzer.py lines 405-414). -/
def decideAction (b s : ℕ) : String :=
  if b > s ∧ b ≥ 4 then "BUY" else if s > b ∧ s ≥ 4 then "SELL" else "HOLD"

/-- Confidence choice (same lines as the action branches). -/
def decideConfidence (b s : ℕ) : ℕ :=
  if b > s ∧ b ≥ 4 then min (b * 15) 90
  else if s > b ∧ s ≥ 4 then min (s * 15) 90
  else 60

/-- Risk choice (src/portfolio/portfolio_analyzer.py lines 416-422). -/
def decideRisk (trend : String) (sentimentScore : ℚ) : String :=
  if trend = "DOWNTREND" ∧ sentimentScore < 0 then "HIGH"
  else if trend = "UPTREND" ∧ sentimentScore > 0 then "LOW"
  else "MEDIUM"

/-- Target price (src/portfolio/portfolio_analyzer.py lines 447-457; the
source wraps the result in `round(·, 2)` for display, which is omitted from
this exact-arithmetic model). -/
def decideTarget (action : String) (currentPrice : ℚ) : Option ℚ :=
  if action = "BUY" then some (currentPrice * (23/20))
  else if action = "SELL" then none
  else some (currentPrice * (11/10))

/-- Stop loss (same lines, same remark on `round(·, 2)`). -/
def decideStop (action : String) (currentPrice : ℚ) : ℚ :=
  if action = "BUY" then currentPrice * (23/25)
  else if action = "SELL" then currentPrice * (19/20)
  else currentPrice * (19/20)

/-- The record returned by `PortfolioAnalyzer._generate_ai_recommendation`
(reasoning text omitted). -/
structure AIRec where
  action : String
  confidence : ℕ
  riskLevel : String
  targetPrice : Option ℚ
  stopLoss : ℚ
  buyScore : ℕ
  sellScore : ℕ
deriving DecidableEq

/-- Assemble the recommendation record from final scores and inputs. -/
def portfolioDecision (b s : ℕ) (trend : String) (sentimentScore currentPrice : ℚ) :
    AIRec :=
  { action := decideAction b s
    confidence := decideConfidence b s
    riskLevel := decideRisk trend sentimentScore
    targetPrice := decideTarget (decideAction b s) currentPrice
    stopLoss := decideStop (decideAction b s) currentPrice
    buyScore := b
    sellScore := s }

/-- Embedding of `PortfolioAnalyzer._generate_ai_recommendation`
(src/portfolio/portfolio_analyzer.py lines 361-468) on its data inputs. -/
def generateAIRecommendation (sentimentScore : ℚ) (trend : String)
    (patterns : List String) (valuationStatus : String)
    (pnlPercent currentPrice : ℚ) : AIRec :=
  portfolioDecision
    (portfolioScores sentimentScore trend patterns valuationStatus pnlPercent).1
    (portfolioScores sentimentScore trend patterns valuationStatus pnlPercent).2
    trend sentimentScore currentPrice

/-- One quarterly `PromoterHolding` row (dates counted in days as `ℤ`). -/
structure Snapshot where
  quarterEndDate : ℤ
  promoterHolding : ℚ
  promoterPledged : ℚ
deriving DecidableEq

/-- A stock together with its quarterly holding snapshots, the per-stock view
`SignalAnalyzer` queries. -/
structure StockData where
  stockId : ℕ
  snapshots : List Snapshot
deriving DecidableEq

/-- Insert a snapshot into a date-descending list, keeping it sorted. -/
def insertSnapDesc (x : Snapshot) : List Snapshot → List Snapshot
  | [] => [x]
  | y :: ys =>
    if x.quarterEndDate ≥ y.quarterEndDate then x :: y :: ys
    else y :: insertSnapDesc x ys

/-- `order_by('-quarter_end_date')`: sort snapshots newest first. -/
def sortSnapsDesc (l : List Snapshot) : List Snapshot := l.foldr insertSnapDesc []

/-- Embedding of `SignalAnalyzer._calculate_confidence`
(src/analysis/signal_analyzer.py lines 226-237). -/
def calcConfidence (change threshold : ℚ) : ℕ :=
  if |change| / threshold ≥ 3 then 90
  else if |change| / threshold ≥ 2 then 80
  else if |change| / threshold ≥ 3/2 then 70
  else 60

/-- A promoter-increase BUY candidate as assembled by
`SignalAnalyzer.get_promoter_increased_stocks`. -/
structure PromoterSignal where
  stockId : ℕ
  latestPromoter : ℚ
  previousPromoter : ℚ
  promoterChange : ℚ
  latestDate : ℤ
  previousDate : ℤ
  signal : String
  confidence : ℕ
deriving DecidableEq

/-- Inner body of `SignalAnalyzer.get_promoter_increased_stocks` once the
two most recent snapshots are in hand (src/analysis/signal_analyzer.py lines
140-162): skip a latest quarter older than the cutoff, and emit a BUY signal
when the change meets the threshold. -/
def promoterPairSignal (today days : ℤ) (threshold : ℚ) (sid : ℕ)
    (latest previous : Snapshot) : Option PromoterSignal :=
  if latest.quarterEndDate < today - days then none
  else if latest.promoterHolding - previous.promoterHolding ≥ threshold then
    some { stockId := sid
           latestPromoter := latest.promoterHolding
           previousPromoter := previous.promoterHolding
           promoterChange := latest.promoterHolding - previous.promoterHolding
           latestDate := latest.quarterEndDate
           previousDate := previous.quarterEndDate
           signal := "BUY"
           confidence := calcConfidence
             (latest.promoterHolding - previous.promoterHolding) threshold }
  else none

/-- Per-stock step of `SignalAnalyzer.get_promoter_increased_stocks`
(src/analysis/signal_analyzer.py lines 134-162): take the two most recent
snapshots and skip stocks with fewer than two. -/
def promoterSignalFor (today days : ℤ) (threshold : ℚ) (sd : StockData) :
    Option PromoterSignal :=
  match sortSnapsDesc sd.snapshots with
  | latest :: previous :: _ =>
    promoterPairSignal today days threshold sd.stockId latest previous
  | _ => none

/-- Insert a signal into a change-descending list, keeping it sorted. -/
def insertSigDesc (x : PromoterSignal) : List PromoterSignal → List PromoterSignal
  | [] => [x]
  | y :: ys =>
    if x.promoterChange ≥ y.promoterChange then x :: y :: ys
    else y :: insertSigDesc x ys

/-- `sorted(results, key=promoter_change, reverse=True)`. -/
def sortSigsDesc (l : List PromoterSignal) : List PromoterSignal :=
  l.foldr insertSigDesc []

/-- Embedding of `SignalAnalyzer.get_promoter_increased_stocks`
(src/analysis/signal_analyzer.py lines 117-164). -/
def getPromoterIncreasedStocks (today days : ℤ) (threshold : ℚ)
    (data : List StockData) : List PromoterSignal :=
  sortSigsDesc (data.filterMap (promoterSignalFor today days threshold))

/-- A portfolio holding with the promoter-holding history of its stock, the
inputs `SignalAnalyzer.get_promoter_decreased_holdings` reads. -/
structure HoldingWithHistory where
  stockId : ℕ
  snapshots : List Snapshot
  pnl : ℚ
deriving DecidableEq

/-- A promoter-decrease SELL candidate (monetary display fields omitted). -/
structure SellSignal where
  stockId : ℕ
  latestPromoter : ℚ
  previousPromoter : ℚ
  promoterChange : ℚ
  signal : String
  confidence : ℕ
  riskLevel : String
deriving DecidableEq

/-- Per-holding step of `SignalAnalyzer.get_promoter_decreased_holdings`
(src/analysis/signal_analyzer.py lines 166-222): emit a SELL signal when the
promoter holding of a held stock dropped by at least the threshold within
the window. -/
def promoterSellPairSignal (today days : ℤ) (threshold : ℚ) (sid : ℕ)
    (latest previous : Snapshot) : Option SellSignal :=
  if latest.quarterEndDate < today - days then none
  else if latest.promoterHolding - previous.promoterHolding ≤ -threshold then
    some { stockId := sid
           latestPromoter := latest.promoterHolding
           previousPromoter := previous.promoterHolding
           promoterChange := latest.promoterHolding - previous.promoterHolding
           signal := "SELL"
           confidence := calcConfidence
             (|latest.promoterHolding - previous.promoterHolding|) threshold
           riskLevel :=
             if |latest.promoterHolding - previous.promoterHolding| > 2 then "HIGH"
             else "MEDIUM" }
  else none

/-- Per-holding dispatch on the two most recent snapshots. -/
def promoterSellSignalFor (today days : ℤ) (threshold : ℚ)
    (h : HoldingWithHistory) : Option SellSignal :=
  match sortSnapsDesc h.snapshots with
  | latest :: previous :: _ =>
    promoterSellPairSignal today days threshold h.stockId latest previous
  | _ => none

/-- Latest stale snapshot: promoter holding 47.5, quarter ended 100 days
ago. -/
def staleSnapL : Snapshot :=
  { quarterEndDate := -100, promoterHolding := 95/2, promoterPledged := 0 }

/-- Previous stale snapshot: promoter holding 45.0, quarter ended 200 days
ago. -/
def staleSnapP : Snapshot :=
  { quarterEndDate := -200, promoterHolding := 45, promoterPledged := 0 }

/-- The stale stock of the C5 counterexample: promoter holding rose from
45.0 to 47.5, but the latest quarter ended 100 days ago. -/
def staleStock : StockData := { stockId := 1, snapshots := [staleSnapL, staleSnapP] }

/-- Latest snapshot of the spec's worked example: 47.5, ten days ago. -/
def exSnapL : Snapshot :=
  { quarterEndDate := -10, promoterHolding := 95/2, promoterPledged := 0 }

/-- Previous snapshot of the spec's worked example: 45.0, 100 days ago. -/
def exSnapP : Snapshot :=
  { quarterEndDate := -100, promoterHolding := 45, promoterPledged := 0 }

/-- The spec's worked example: promoter holding 45.0 then 47.5 with the
latest quarter inside the window. -/
def exampleStock : StockData := { stockId := 2, snapshots := [exSnapL, exSnapP] }

/-- A `Stock` row as read by the entry-signal detectors (dates in days). -/
structure StockN where
  stockId : ℕ
  currentPrice : Option ℚ
  priceUpdatedAt : ℤ
deriving DecidableEq

/-- A `NewsArticle` row with the stocks it mentions. -/
structure ArticleN where
  title : List Char
  content : List Char
  sentiment : String
  publishedDate : ℤ
  mentionedStocks : List StockN
deriving DecidableEq

/-- An `EntryOpportunity` row (description text omitted). -/
structure Opp where
  stockId : ℕ
  oppType : String
  signalDate : ℤ
  signalStrength : String
  priceAtSignal : Option ℚ
  percentageChange : Option ℚ
  isActive : Bool
  expiresAt : ℤ
deriving DecidableEq

/-- Count of NEGATIVE articles mentioning the stock within the lookback
window (src/analysis/entry_signal_analyzer.py lines 47-51). -/
def negativeNewsCount (today lookback : ℤ) (sid : ℕ)
    (articles : List ArticleN) : ℕ :=
  (articles.filter fun a =>
    a.mentionedStocks.any (fun st => st.stockId == sid) &&
    a.sentiment == "NEGATIVE" &&
    decide (today - lookback ≤ a.publishedDate)).length

/-- Embedding of `EntrySignalAnalyzer.detect_price_dips`
(src/analysis/entry_signal_analyzer.py lines 22-72).  The saved
`EntryOpportunity` rows `db` are part of the detector's environment, but the
source never consults them in this detector: no existing-signal check guards
the emission, which is why the parameter is unused. -/
def detectPriceDips (today : ℤ) (dipThreshold : ℚ) (daysLookback : ℤ)
    (stocks : List StockN) (articles : List ArticleN) (db : List Opp) :
    List Opp :=
  (stocks.filter fun s =>
      s.currentPrice.isSome &&
      decide (today - daysLookback ≤ s.priceUpdatedAt)).filterMap
    fun s =>
      if 2 ≤ negativeNewsCount today daysLookback s.stockId articles then
        if dipThreshold ≤
            min ((negativeNewsCount today daysLookback s.stockId articles : ℚ) *
              (5/2)) 10 then
          some { stockId := s.stockId
                 oppType := "PRICE_DIP"
                 signalDate := today
                 signalStrength :=
                   if (7 : ℚ) ≤
                       min ((negativeNewsCount today daysLookback s.stockId articles : ℚ) *
                         (5/2)) 10
                   then "STRONG" else "MODERATE"
                 priceAtSignal := s.currentPrice
                 percentageChange :=
                   some (-(min ((negativeNewsCount today daysLookback s.stockId articles : ℚ) *
                     (5/2)) 10))
                 isActive := true
                 expiresAt := today + 7 }
        else none
      else none

/-- Order keywords of `EntrySignalAnalyzer.detect_new_orders`
(src/analysis/entry_signal_analyzer.py line 88). -/
def orderKeywords : List (List Char) :=
  ["order", "contract", "won", "awarded", "bagged", "deal"].map String.toList

/-- An article mentions orders or contracts in its title or content. -/
def articleHasOrderKeyword (a : ArticleN) : Bool :=
  orderKeywords.any fun k =>
    containsSub k (lowerStr a.title) || containsSub k (lowerStr a.content)

/-- Embedding of `EntrySignalAnalyzer.detect_new_orders`
(src/analysis/entry_signal_analyzer.py lines 74-123): for each recent
POSITIVE/NEUTRAL article with an order keyword, emit an ORDER_WIN signal for
each mentioned stock unless the saved rows already hold an ORDER_WIN for
that stock dated within the last 7 days. -/
def detectNewOrders (today daysLookback : ℤ) (articles : List ArticleN)
    (db : List Opp) : List Opp :=
  (articles.filter fun a =>
      decide (today - daysLookback ≤ a.publishedDate) &&
      (a.sentiment == "POSITIVE" || a.sentiment == "NEUTRAL")).flatMap
    fun a =>
      if articleHasOrderKeyword a then
        a.mentionedStocks.filterMap fun st =>
          if db.any fun o =>
              o.stockId == st.stockId && o.oppType == "ORDER_WIN" &&
              decide (today - 7 ≤ o.signalDate) then none
          else some { stockId := st.stockId
                      oppType := "ORDER_WIN"
                      signalDate := a.publishedDate
                      signalStrength :=
                        if containsSub ("major".toList) (lowerStr a.title) ||
                            containsSub ("significant".toList) (lowerStr a.title)
                        then "STRONG" else "MODERATE"
                      priceAtSignal := st.currentPrice
                      percentageChange := none
                      isActive := true
                      expiresAt := today + 14 }
      else []

/-- The stock of the C3 counterexample. -/
def cexStock : StockN := { stockId := 1, currentPrice := some 100, priceUpdatedAt := 0 }

/-- First negative article about the counterexample stock. -/
def negArticle1 : ArticleN :=
  { title := "trouble at plant".toList, content := "".toList,
    sentiment := "NEGATIVE", publishedDate := 0, mentionedStocks := [cexStock] }

/-- Second negative article about the counterexample stock. -/
def negArticle2 : ArticleN :=
  { title := "more trouble".toList, content := "".toList,
    sentiment := "NEGATIVE", publishedDate := -1, mentionedStocks := [cexStock] }

/-- The active PRICE_DIP signal saved by the first invocation of
`detect_price_dips` on the counterexample data. -/
def firstRunDip : Opp :=
  { stockId := 1, oppType := "PRICE_DIP", signalDate := 0,
    signalStrength := "MODERATE", priceAtSignal := some 100,
    percentageChange := some (-5), isActive := true, expiresAt := 7 }

end StockAI

namespace StockAI

/-- The code's action branches coincide with the spec's breakpoints. -/
theorem codeAction_eq_specAction (x : ℚ) : codeAction x = specAction x := by
  unfold codeAction specAction
  split_ifs <;> first | rfl | linarith

/-- The code's risk branches coincide with the spec's wording. -/
theorem codeRisk_eq_specRisk (x : ℚ) : codeRisk x = specRisk x := by
  unfold codeRisk specRisk
  split_ifs <;> first | rfl | linarith

/-- The code's confidence branches coincide with the spec's wording. -/
theorem codeConfidence_eq_specConfidence (x : ℚ) :
    codeConfidence x = specConfidence x := rfl

/-- Each article's weight is at least 1. -/
theorem one_le_weight (a : ArticleA) : 1 ≤ weight a := by
  unfold weight; split_ifs <;> norm_num

/-- The total impact weight dominates the number of articles. -/
theorem length_le_totalImpactWeight (articles : List ArticleA) :
    articles.length ≤ totalImpactWeight articles := by
  induction articles with
  | nil => simp [totalImpactWeight]
  | cons a l ih =>
    have := one_le_weight a
    simp only [totalImpactWeight, List.map_cons, List.sum_cons, List.length_cons] at *
    omega

/-- A successful analysis labels the record with the analyzed symbol. -/
theorem analyzeStockSentiment_symbol (s : String) (articles : List ArticleA)
    (r : StockRec) (h : analyzeStockSentiment s articles = some r) :
    r.stockSymbol = s := by
  unfold analyzeStockSentiment at h
  split_ifs at h
  cases h
  rfl

/-- Membership in `insertIfNew`. -/
theorem mem_insertIfNew (s x : String) (acc : List String) :
    s ∈ insertIfNew acc x ↔ s ∈ acc ∨ s = x := by
  unfold insertIfNew
  split_ifs with hx
  · constructor
    · exact fun h => Or.inl h
    · rintro (h | rfl)
      · exact h
      · exact hx
  · simp [List.mem_append]

/-- Membership after folding `insertIfNew` over a list of symbols. -/
theorem mem_foldl_insertIfNew (s : String) (l : List String) (acc : List String) :
    s ∈ l.foldl insertIfNew acc ↔ s ∈ acc ∨ s ∈ l := by
  induction l generalizing acc with
  | nil => simp
  | cons x xs ih =>
    simp only [List.foldl_cons, ih, mem_insertIfNew, List.mem_cons]
    tauto

/-- A symbol is a grouping key iff some article mentions it. -/
theorem mem_stockKeys (s : String) (articles : List ArticleA) :
    s ∈ stockKeys articles ↔ ∃ a ∈ articles, s ∈ a.mentionedStocks := by
  unfold stockKeys
  suffices h : ∀ acc, s ∈ articles.foldl (fun acc a => a.mentionedStocks.foldl insertIfNew acc) acc ↔
      s ∈ acc ∨ ∃ a ∈ articles, s ∈ a.mentionedStocks by
    simpa using h []
  induction articles with
  | nil => simp
  | cons a l ih =>
    intro acc
    simp only [List.foldl_cons, ih, mem_foldl_insertIfNew, List.mem_cons]
    constructor
    · rintro ((h | h) | ⟨b, hb, hs⟩)
      · exact Or.inl h
      · exact Or.inr ⟨a, Or.inl rfl, h⟩
      · exact Or.inr ⟨b, Or.inr hb, hs⟩
    · rintro (h | ⟨b, (rfl | hb), hs⟩)
      · exact Or.inl (Or.inl h)
      · exact Or.inl (Or.inr hs)
      · exact Or.inr ⟨b, hb, hs⟩

/-- C2: the rule-based sentiment classifier counts positive and negative
keyword hits on the lower-cased text; more positive hits give POSITIVE with
confidence `min(pos/(pos+neg+1), 0.8)`, which then lies in `(0, 0.8]`; the
negative case is symmetric; ties give NEUTRAL with confidence exactly 0.5. -/
theorem C2_sentiment_rules (text : List Char) :
    (posCount (lowerStr text) > negCount (lowerStr text) →
      analyzeSentimentRules text =
        ("POSITIVE",
          min ((posCount (lowerStr text) : ℚ) /
            ((posCount (lowerStr text) : ℚ) + (negCount (lowerStr text) : ℚ) + 1)) (4/5)) ∧
      0 < (analyzeSentimentRules text).2 ∧ (analyzeSentimentRules text).2 ≤ 4/5) ∧
    (negCount (lowerStr text) > posCount (lowerStr text) →
      analyzeSentimentRules text =
        ("NEGATIVE",
          min ((negCount (lowerStr text) : ℚ) /
            ((posCount (lowerStr text) : ℚ) + (negCount (lowerStr text) : ℚ) + 1)) (4/5)) ∧
      0 < (analyzeSentimentRules text).2 ∧ (analyzeSentimentRules text).2 ≤ 4/5) ∧
    (posCount (lowerStr text) = negCount (lowerStr text) →
      analyzeSentimentRules text = ("NEUTRAL", 1/2)) := by
  have hden : (0 : ℚ) <
      (posCount (lowerStr text) : ℚ) + (negCount (lowerStr text) : ℚ) + 1 := by positivity
  refine ⟨?_, ?_, ?_⟩
  · intro h
    have heq : analyzeSentimentRules text =
        ("POSITIVE",
          min ((posCount (lowerStr text) : ℚ) /
            ((posCount (lowerStr text) : ℚ) + (negCount (lowerStr text) : ℚ) + 1)) (4/5)) := by
      unfold analyzeSentimentRules
      rw [if_pos h]
    refine ⟨heq, ?_, ?_⟩
    · rw [heq]
      have hp1 : (1 : ℚ) ≤ (posCount (lowerStr text) : ℚ) := by
        have : 1 ≤ posCount (lowerStr text) := by omega
        exact_mod_cast this
      have hpos : (0 : ℚ) < (posCount (lowerStr text) : ℚ) /
          ((posCount (lowerStr text) : ℚ) + (negCount (lowerStr text) : ℚ) + 1) :=
        div_pos (by linarith) hden
      exact lt_min hpos (by norm_num)
    · rw [heq]
      exact min_le_right _ (4/5 : ℚ)
  · intro h
    have heq : analyzeSentimentRules text =
        ("NEGATIVE",
          min ((negCount (lowerStr text) : ℚ) /
            ((posCount (lowerStr text) : ℚ) + (negCount (lowerStr text) : ℚ) + 1)) (4/5)) := by
      unfold analyzeSentimentRules
      rw [if_neg (by omega), if_pos h]
    refine ⟨heq, ?_, ?_⟩
    · rw [heq]
      have hn1 : (1 : ℚ) ≤ (negCount (lowerStr text) : ℚ) := by
        have : 1 ≤ negCount (lowerStr text) := by omega
        exact_mod_cast this
      have hpos : (0 : ℚ) < (negCount (lowerStr text) : ℚ) /
          ((posCount (lowerStr text) : ℚ) + (negCount (lowerStr text) : ℚ) + 1) :=
        div_pos (by linarith) hden
      exact lt_min hpos (by norm_num)
    · rw [heq]
      exact min_le_right _ (4/5 : ℚ)
  · intro h
    unfold analyzeSentimentRules
    rw [if_neg (by omega), if_neg (by omega)]

/-- Witness for C2 at a concrete text: "profit and growth" has two positive
hits and zero negative hits, so the classifier returns POSITIVE with
confidence `2/3`. -/
theorem C2_sentiment_rules_witness :
    analyzeSentimentRules ("profit and growth".toList) =
      ("POSITIVE", min ((2 : ℚ) / (2 + 0 + 1)) (4/5)) := by
  have h := (C2_sentiment_rules ("profit and growth".toList)).1 (by decide)
  have hcount : posCount (lowerStr ("profit and growth".toList)) = 2 ∧
      negCount (lowerStr ("profit and growth".toList)) = 0 := by decide
  rw [h.1, hcount.1, hcount.2]
  norm_num

/-- Evaluation of the spec's TCS example: total weight 5, positive weight
3.6, net sentiment 0.72, action BUY, risk LOW, confidence 94.4. -/
theorem tcs_example_eval :
    analyzeStockSentiment "TCS" [tcsArticle1, tcsArticle2] = some
      { stockSymbol := "TCS", recommendation := "BUY", riskLevel := "LOW",
        confidenceLevel := 472/5, keyFactors := [], relatedArticles := [],
        netSentimentScore := 18/25, totalArticles := 2,
        highImpactArticles := 1 } := by
  have hnet : netSentiment [tcsArticle1, tcsArticle2] = 18/25 := by
    simp +decide [netSentiment, positiveWeight, negativeWeight,
      totalImpactWeight, weight, tcsArticle1, tcsArticle2]
    norm_num
  have h0 : ¬ ([tcsArticle1, tcsArticle2] = ([] : List ArticleA)) := by simp
  have h1 : ¬ (totalImpactWeight [tcsArticle1, tcsArticle2] = 0) := by decide
  have ha : codeAction (18/25) = "BUY" := by
    unfold codeAction
    rw [if_pos (by norm_num), if_pos (by norm_num)]
  have hb : codeRisk (18/25) = "LOW" := by
    unfold codeRisk
    rw [if_pos (by norm_num), if_pos (by norm_num)]
  have hc : codeConfidence (18/25) = 472/5 := by
    unfold codeConfidence
    rw [if_pos (by norm_num), min_eq_left (by norm_num)]
    norm_num
  have hk : ([tcsArticle1, tcsArticle2].filterMap fun a =>
      if a.category = "OTHER" then none else some a.category) = [] := by decide
  have hr2 : ([tcsArticle1, tcsArticle2].filterMap fun a => a.articleId) = [] := by
    decide
  have hhi : ([tcsArticle1, tcsArticle2].filter fun a =>
      a.impactLevel = "HIGH").length = 1 := by decide
  unfold analyzeStockSentiment
  rw [if_neg h0, if_neg h1, hnet, ha, hb, hc, hk, hr2, hhi]
  rfl

/-- C1: every recommendation produced by the aggregator weights articles
3/2/1 by impact, sets `net_sentiment` to the weighted positive-minus-negative
sum over the total weight, and maps it with the spec's fixed breakpoints for
action, risk and confidence; moreover the two-article TCS example (POSITIVE
0.8 HIGH, POSITIVE 0.6 MEDIUM) has total weight 5, positive weight 3.6,
net sentiment 0.72, and yields action BUY, risk LOW, confidence 94.4. -/
theorem C1_aggregator (s : String) (articles : List ArticleA) (r : StockRec)
    (h : analyzeStockSentiment s articles = some r) :
    (r.netSentimentScore =
        (positiveWeight articles - negativeWeight articles) /
          (totalImpactWeight articles : ℚ) ∧
      r.recommendation = specAction r.netSentimentScore ∧
      r.riskLevel = specRisk r.netSentimentScore ∧
      r.confidenceLevel = specConfidence r.netSentimentScore) ∧
    (totalImpactWeight [tcsArticle1, tcsArticle2] = 5 ∧
      positiveWeight [tcsArticle1, tcsArticle2] = 18/5 ∧
      netSentiment [tcsArticle1, tcsArticle2] = 18/25 ∧
      analyzeStockSentiment "TCS" [tcsArticle1, tcsArticle2] = some
        { stockSymbol := "TCS", recommendation := "BUY", riskLevel := "LOW",
          confidenceLevel := 472/5, keyFactors := [], relatedArticles := [],
          netSentimentScore := 18/25, totalArticles := 2,
          highImpactArticles := 1 }) := by
  constructor
  · unfold analyzeStockSentiment at h
    split_ifs at h
    cases h
    refine ⟨rfl, ?_, ?_, ?_⟩
    · exact codeAction_eq_specAction _
    · exact codeRisk_eq_specRisk _
    · exact codeConfidence_eq_specConfidence _
  · refine ⟨by decide, ?_, ?_, tcs_example_eval⟩
    · simp +decide [positiveWeight, weight, tcsArticle1, tcsArticle2]
      norm_num
    · simp +decide [netSentiment, positiveWeight, negativeWeight,
        totalImpactWeight, weight, tcsArticle1, tcsArticle2]
      norm_num

/-- Witness for C1 at the spec's TCS example, discharging the hypothesis by
evaluation. -/
theorem C1_aggregator_witness :
    ({ stockSymbol := "TCS", recommendation := "BUY", riskLevel := "LOW",
       confidenceLevel := 472/5, keyFactors := [], relatedArticles := [],
       netSentimentScore := 18/25, totalArticles := 2,
       highImpactArticles := 1 } : StockRec).recommendation =
      specAction (18/25 : ℚ) := by
  have h := (C1_aggregator "TCS" [tcsArticle1, tcsArticle2]
    { stockSymbol := "TCS", recommendation := "BUY", riskLevel := "LOW",
      confidenceLevel := 472/5, keyFactors := [], relatedArticles := [],
      netSentimentScore := 18/25, totalArticles := 2,
      highImpactArticles := 1 } tcs_example_eval).1
  exact h.2.1

/-- C4: a zero total impact weight yields no recommendation: the per-stock
analysis returns `none`, and when the grouped articles for a symbol carry
zero total weight the overall recommendation list contains no record for
that symbol (no exception is modelled because the embedding is total). -/
theorem C4_zero_weight (s : String) (articles : List ArticleA)
    (h : totalImpactWeight articles = 0) :
    analyzeStockSentiment s articles = none ∧
    ∀ allArticles : List ArticleA,
      totalImpactWeight (allArticles.filter fun a => s ∈ a.mentionedStocks) = 0 →
      ∀ r ∈ generateStockRecommendations allArticles, r.stockSymbol ≠ s := by
  constructor
  · have hnil : articles = [] := by
      have := length_le_totalImpactWeight articles
      rw [h] at this
      exact List.length_eq_zero.mp (by omega)
    subst hnil
    rfl
  · intro allArticles hzero r hr hsym
    obtain ⟨s', hs', hsome⟩ := List.mem_filterMap.mp hr
    have : r.stockSymbol = s' := analyzeStockSentiment_symbol _ _ _ hsome
    rw [hsym] at this
    subst this
    obtain ⟨a, ha, hmem⟩ := (mem_stockKeys s allArticles).mp hs'
    have hfilter : a ∈ allArticles.filter fun a => s ∈ a.mentionedStocks := by
      rw [List.mem_filter]
      exact ⟨ha, by simpa using hmem⟩
    have hlen : 1 ≤ (allArticles.filter fun a => s ∈ a.mentionedStocks).length :=
      List.length_pos.mpr (List.ne_nil_of_mem hfilter)
    have := length_le_totalImpactWeight (allArticles.filter fun a => s ∈ a.mentionedStocks)
    omega

/-- Witness for C4: the empty article list has total weight 0, is analyzed to
`none`, and a stock group with zero weight is omitted from the output. -/
theorem C4_zero_weight_witness :
    analyzeStockSentiment "X" [] = none ∧
    ∀ r ∈ generateStockRecommendations [tcsArticle1], r.stockSymbol ≠ "X" := by
  have h := C4_zero_weight "X" [] (by decide)
  exact ⟨h.1, h.2 [tcsArticle1] (by decide)⟩

/-- C10 (implicit): every article weighs at least 1, the total weight
dominates the article count, a non-empty group always produces a
recommendation record (the zero-weight guard is unreachable there), and
every stock mentioned by at least one article receives a record in the
overall output. -/
theorem C10_weight_at_least_one (articles : List ArticleA) (s : String) :
    (∀ a : ArticleA, 1 ≤ weight a) ∧
    articles.length ≤ totalImpactWeight articles ∧
    (articles ≠ [] → ∃ r, analyzeStockSentiment s articles = some r) ∧
    ((∃ a ∈ articles, s ∈ a.mentionedStocks) →
      ∃ r ∈ generateStockRecommendations articles, r.stockSymbol = s) := by
  have hmain : ∀ (l : List ArticleA) (s' : String), l ≠ [] →
      ∃ r, analyzeStockSentiment s' l = some r := by
    intro l s' hne
    have hlen : 1 ≤ l.length := List.length_pos.mpr hne
    have hw := length_le_totalImpactWeight l
    exact ⟨_, by unfold analyzeStockSentiment; rw [if_neg hne, if_neg (by omega)]⟩
  refine ⟨one_le_weight, length_le_totalImpactWeight articles, hmain articles s, ?_⟩
  intro ⟨a, ha, hmem⟩
  have hkey : s ∈ stockKeys articles := (mem_stockKeys s articles).mpr ⟨a, ha, hmem⟩
  have hfilter : a ∈ articles.filter fun a => s ∈ a.mentionedStocks := by
    rw [List.mem_filter]
    exact ⟨ha, by simpa using hmem⟩
  obtain ⟨r, hr⟩ := hmain (articles.filter fun a => s ∈ a.mentionedStocks) s
    (List.ne_nil_of_mem hfilter)
  refine ⟨r, List.mem_filterMap.mpr ⟨s, hkey, hr⟩, analyzeStockSentiment_symbol _ _ _ hr⟩

/-- Witness for C10: the single TCS article produces a recommendation for
TCS. -/
theorem C10_weight_at_least_one_witness :
    ∃ r ∈ generateStockRecommendations [tcsArticle1], r.stockSymbol = "TCS" :=
  (C10_weight_at_least_one [tcsArticle1] "TCS").2.2.2
    ⟨tcsArticle1, by simp, by decide⟩

/-- The action is BUY exactly when the buy score strictly leads and is at
least 4. -/
theorem decideAction_eq_buy (b s : ℕ) :
    decideAction b s = "BUY" ↔ b > s ∧ 4 ≤ b := by
  unfold decideAction
  split_ifs with h1 h2 <;> simp_all

/-- The action is SELL exactly when the sell score strictly leads and is at
least 4. -/
theorem decideAction_eq_sell (b s : ℕ) :
    decideAction b s = "SELL" ↔ s > b ∧ 4 ≤ s := by
  unfold decideAction
  split_ifs with h1 h2 <;> simp_all <;> omega

/-- The action is HOLD exactly when neither score wins. -/
theorem decideAction_eq_hold (b s : ℕ) :
    decideAction b s = "HOLD" ↔ ¬(b > s ∧ 4 ≤ b) ∧ ¬(s > b ∧ 4 ≤ s) := by
  unfold decideAction
  split_ifs with h1 h2 <;> simp_all

/-- C6: the portfolio scorer returns BUY exactly when `buy_score` strictly
exceeds `sell_score` and is at least 4, SELL symmetrically, HOLD otherwise;
confidence is `min(score*15, 90)` of the winning score and 60 for HOLD; risk
is HIGH for downtrend with negative sentiment, LOW for uptrend with positive
sentiment, MEDIUM otherwise; targets and stops are the fixed offsets of +15%
and -8% for BUY, -5% (no target) for SELL, +10% and -5% for HOLD. -/
theorem C6_portfolio_decision (b s : ℕ) (trend : String)
    (sent cp : ℚ) (patterns : List String) (val : String) (pnl : ℚ) :
    ((portfolioDecision b s trend sent cp).action = "BUY" ↔
      (portfolioDecision b s trend sent cp).buyScore >
        (portfolioDecision b s trend sent cp).sellScore ∧
      4 ≤ (portfolioDecision b s trend sent cp).buyScore) ∧
    ((portfolioDecision b s trend sent cp).action = "SELL" ↔
      (portfolioDecision b s trend sent cp).sellScore >
        (portfolioDecision b s trend sent cp).buyScore ∧
      4 ≤ (portfolioDecision b s trend sent cp).sellScore) ∧
    ((portfolioDecision b s trend sent cp).action = "BUY" →
      (portfolioDecision b s trend sent cp).confidence = min (b * 15) 90) ∧
    ((portfolioDecision b s trend sent cp).action = "SELL" →
      (portfolioDecision b s trend sent cp).confidence = min (s * 15) 90) ∧
    ((portfolioDecision b s trend sent cp).action = "HOLD" →
      (portfolioDecision b s trend sent cp).confidence = 60) ∧
    ((portfolioDecision b s trend sent cp).riskLevel = "HIGH" ↔
      trend = "DOWNTREND" ∧ sent < 0) ∧
    ((portfolioDecision b s trend sent cp).riskLevel = "LOW" ↔
      trend = "UPTREND" ∧ sent > 0) ∧
    ((portfolioDecision b s trend sent cp).action = "BUY" →
      (portfolioDecision b s trend sent cp).targetPrice = some (cp * (23/20)) ∧
      (portfolioDecision b s trend sent cp).stopLoss = cp * (23/25)) ∧
    ((portfolioDecision b s trend sent cp).action = "SELL" →
      (portfolioDecision b s trend sent cp).targetPrice = none ∧
      (portfolioDecision b s trend sent cp).stopLoss = cp * (19/20)) ∧
    ((portfolioDecision b s trend sent cp).action = "HOLD" →
      (portfolioDecision b s trend sent cp).targetPrice = some (cp * (11/10)) ∧
      (portfolioDecision b s trend sent cp).stopLoss = cp * (19/20)) ∧
    generateAIRecommendation sent trend patterns val pnl cp =
      portfolioDecision (portfolioScores sent trend patterns val pnl).1
        (portfolioScores sent trend patterns val pnl).2 trend sent cp := by
  have hact : (portfolioDecision b s trend sent cp).action = decideAction b s := rfl
  have hbs : (portfolioDecision b s trend sent cp).buyScore = b := rfl
  have hss : (portfolioDecision b s trend sent cp).sellScore = s := rfl
  refine ⟨?_, ?_, ?_, ?_, ?_, ?_, ?_, ?_, ?_, ?_, rfl⟩
  · rw [hact, hbs, hss]; exact decideAction_eq_buy b s
  · rw [hact, hbs, hss]; exact decideAction_eq_sell b s
  · intro h
    rw [hact] at h
    have hb := (decideAction_eq_buy b s).mp h
    show decideConfidence b s = _
    unfold decideConfidence
    rw [if_pos ⟨hb.1, hb.2⟩]
  · intro h
    rw [hact] at h
    have hb := (decideAction_eq_sell b s).mp h
    show decideConfidence b s = _
    unfold decideConfidence
    rw [if_neg (by omega), if_pos ⟨hb.1, hb.2⟩]
  · intro h
    rw [hact] at h
    have hb := (decideAction_eq_hold b s).mp h
    show decideConfidence b s = _
    unfold decideConfidence
    rw [if_neg (by omega), if_neg (by omega)]
  · show decideRisk trend sent = "HIGH" ↔ _
    unfold decideRisk
    split_ifs with h1 h2 <;> simp_all
  · show decideRisk trend sent = "LOW" ↔ _
    unfold decideRisk
    split_ifs with h1 h2 <;> simp_all
  · intro h
    rw [hact] at h
    constructor
    · show decideTarget (decideAction b s) cp = _
      rw [h]; rfl
    · show decideStop (decideAction b s) cp = _
      rw [h]; rfl
  · intro h
    rw [hact] at h
    constructor
    · show decideTarget (decideAction b s) cp = _
      rw [h]; rfl
    · show decideStop (decideAction b s) cp = _
      rw [h]; rfl
  · intro h
    rw [hact] at h
    constructor
    · show decideTarget (decideAction b s) cp = _
      rw [h]; rfl
    · show decideStop (decideAction b s) cp = _
      rw [h]; rfl

/-- Witness for C6 at concrete scores: buy score 5 against sell score 1
gives action BUY. -/
theorem C6_portfolio_decision_witness :
    (portfolioDecision 5 1 "UPTREND" (1/2) 100).action = "BUY" :=
  ((C6_portfolio_decision 5 1 "UPTREND" (1/2) 100 [] "FAIR_VALUE" 0).1).mpr
    ⟨by decide, by decide⟩

/-- C9: with unrealized loss beyond 10%, exactly one point is added to the
leading score (buy when buy leads, sell when sell leads); with unrealized
gain above 20%, exactly one point is added to the sell score. -/
theorem C9_pnl_adjustment (pnl : ℚ) (b s : ℕ) :
    (pnl < -10 → b > s → pnlAdjust pnl b s = (b + 1, s)) ∧
    (pnl < -10 → s > b → pnlAdjust pnl b s = (b, s + 1)) ∧
    (pnl > 20 → pnlAdjust pnl b s = (b, s + 1)) := by
  refine ⟨?_, ?_, ?_⟩
  · intro hp hb
    unfold pnlAdjust
    rw [if_neg (by linarith), if_pos hp, if_pos hb]
  · intro hp hs
    unfold pnlAdjust
    rw [if_neg (by linarith), if_pos hp, if_neg (by omega)]
  · intro hp
    unfold pnlAdjust
    rw [if_pos hp]

/-- Witness for C9: a 15% loss with buy score 3 leading sell score 2 raises
the buy score to 4. -/
theorem C9_pnl_adjustment_witness : pnlAdjust (-15) 3 2 = (4, 2) :=
  (C9_pnl_adjustment (-15) 3 2).1 (by norm_num) (by omega)

/-- The keyword loop computes `points` times the number of occurring
keywords, on top of the accumulator. -/
theorem foldl_addKeywordScore (text : List Char) (points a : ℕ)
    (l : List (List Char)) :
    l.foldl (addKeywordScore text points) a =
      a + points * l.countP (fun k => containsSub k text) := by
  induction l generalizing a with
  | nil => simp
  | cons k ks ih =>
    rw [List.foldl_cons, ih, List.countP_cons]
    unfold addKeywordScore
    by_cases hc : containsSub k text <;> simp [hc] <;> ring

/-- The impact score in closed form. -/
theorem impactScore_eq (t c : List Char) (stocks : List String) :
    impactScore t c stocks =
      3 * highImpactKeywords.countP (fun k => containsSub k (impactText t c)) +
      mediumImpactKeywords.countP (fun k => containsSub k (impactText t c)) +
      (if majorStocks.any (fun s => stocks.contains s) then 2 else 0) +
      (if stocks.length > 3 then 1 else 0) := by
  simp only [impactScore]
  rw [foldl_addKeywordScore, foldl_addKeywordScore]
  split_ifs <;> omega

/-- `countP` respects pointwise implication of predicates. -/
theorem countP_le_of_imp {α : Type} (l : List α) (p q : α → Bool)
    (h : ∀ a ∈ l, p a = true → q a = true) : l.countP p ≤ l.countP q := by
  induction l with
  | nil => simp
  | cons x xs ih =>
    rw [List.countP_cons, List.countP_cons]
    have hx := h x (by simp)
    have hxs : ∀ a ∈ xs, p a = true → q a = true := fun a ha => h a (by simp [ha])
    have hrec := ih hxs
    by_cases hp : p x
    · rw [if_pos hp, if_pos (hx hp)]
      omega
    · split_ifs <;> omega

/-- C8: the impact score is monotonic in high-impact keyword hits: if every
high-impact keyword occurring in the first text also occurs in the second,
at least one more occurs in the second, and the medium-impact hit count and
mentioned-stock list are unchanged, the second score is never lower. -/
theorem C8_impact_monotonic (t1 c1 t2 c2 : List Char) (stocks : List String)
    (hsub : ∀ k ∈ highImpactKeywords,
      containsSub k (impactText t1 c1) = true → containsSub k (impactText t2 c2) = true)
    (hextra : ∃ k ∈ highImpactKeywords,
      containsSub k (impactText t2 c2) = true ∧ containsSub k (impactText t1 c1) = false)
    (hmed : mediumImpactKeywords.countP (fun k => containsSub k (impactText t2 c2)) =
      mediumImpactKeywords.countP (fun k => containsSub k (impactText t1 c1))) :
    impactScore t1 c1 stocks ≤ impactScore t2 c2 stocks := by
  rw [impactScore_eq, impactScore_eq, hmed]
  have hcount := countP_le_of_imp highImpactKeywords
    (fun k => containsSub k (impactText t1 c1))
    (fun k => containsSub k (impactText t2 c2)) hsub
  omega

/-- Witness for C8: adding the high-impact keyword "breaking" to a text with
no keyword hits cannot lower the impact score. -/
theorem C8_impact_monotonic_witness :
    impactScore ("hello".toList) ("world".toList) [] ≤
      impactScore ("breaking hello".toList) ("world".toList) [] :=
  C8_impact_monotonic ("hello".toList) ("world".toList)
    ("breaking hello".toList) ("world".toList) []
    (by decide) ⟨"breaking".toList, by decide, by decide, by decide⟩ (by decide)

/-- Splitting behind a non-dot head character prepends it to the first
part. -/
theorem splitDotSpace_cons_of_ne (c : Char) (xs : List Char) (hc : ¬ c = '.') :
    splitDotSpace (c :: xs) =
      match splitDotSpace xs with
      | [] => [[c]]
      | h :: t => (c :: h) :: t := by
  cases xs with
  | nil => rfl
  | cons d rest =>
    show (if c = '.' ∧ d = ' ' then _ else _) = _
    rw [if_neg (by intro h; exact hc h.1)]

/-- A separator-free block of `'b'` characters is a single part. -/
theorem splitDotSpace_replicate_b (m : ℕ) :
    splitDotSpace (List.replicate m 'b') = [List.replicate m 'b'] := by
  induction m with
  | zero => rfl
  | succ k ih =>
    rw [List.replicate_succ, splitDotSpace_cons_of_ne _ _ (by decide), ih]

/-- Splitting a body made of a block of `'a'`, one separator, and a block of
`'b'` yields exactly the two blocks. -/
theorem splitDotSpace_marker (n m : ℕ) :
    splitDotSpace (List.replicate n 'a' ++ '.' :: ' ' :: List.replicate m 'b') =
      [List.replicate n 'a', List.replicate m 'b'] := by
  induction n with
  | zero =>
    rw [List.replicate_zero, List.nil_append]
    show (if ('.' : Char) = '.' ∧ (' ' : Char) = ' ' then _ else _) = _
    rw [if_pos ⟨rfl, rfl⟩, splitDotSpace_replicate_b]
  | succ k ih =>
    rw [List.replicate_succ, List.cons_append,
      splitDotSpace_cons_of_ne _ _ (by decide), ih]

/-- Counterexample to C7 as stated: the default summary of a body whose
first two sentences are a thousand characters each is 2003 characters long —
the two-sentence path applies no truncation at all, so the summary is not
bounded to a few hundred characters. -/
theorem C7_counterexample :
    (generateSummaryDefault longBody).length = 2003 ∧
      400 < (generateSummaryDefault longBody).length := by
  have hs : splitDotSpace longBody =
      [List.replicate 1000 'a', List.replicate 1000 'b'] := splitDotSpace_marker 1000 1000
  have heq : generateSummaryDefault longBody =
      List.intercalate ['.', ' ']
        [List.replicate 1000 'a', List.replicate 1000 'b'] ++ ['.'] := by
    unfold generateSummaryDefault
    rw [hs]
    norm_num
  have hpair : ∀ x y : List Char,
      (List.intercalate ['.', ' '] [x, y] ++ ['.']).length =
        x.length + y.length + 3 := by
    intro x y
    show ((x ++ ('.' :: ' ' :: (y ++ []))) ++ ['.']).length = _
    simp
    omega
  have hlen : (generateSummaryDefault longBody).length = 2003 := by
    rw [heq, hpair, List.length_replicate, List.length_replicate]
  exact ⟨hlen, by omega⟩

/-- C7 amended: the default summary path joins the first two `'. '`-separated
parts and appends a dot without truncating them; only when the body has
fewer than two parts is it cut to the first 200 characters plus `'...'`
(at most 203 characters); in all cases the summary is non-empty. -/
theorem C7_summary_amended (content : List Char) :
    (2 ≤ (splitDotSpace content).length →
      generateSummaryDefault content =
        List.intercalate ['.', ' '] ((splitDotSpace content).take 2) ++ ['.']) ∧
    ((splitDotSpace content).length < 2 →
      generateSummaryDefault content = content.take 200 ++ "...".toList ∧
      (generateSummaryDefault content).length ≤ 203) ∧
    generateSummaryDefault content ≠ [] := by
  unfold generateSummaryDefault
  by_cases h : 2 ≤ (splitDotSpace content).length
  · rw [if_pos h]
    exact ⟨fun _ => rfl, fun hlt => absurd h (by omega), by simp⟩
  · rw [if_neg h]
    refine ⟨fun hge => absurd hge h, fun _ => ⟨rfl, ?_⟩, by simp⟩
    have ht : (content.take 200).length ≤ 200 := by
      simp [List.length_take]
    simp only [List.length_append]
    have : ("...".toList).length = 3 := by decide
    omega

/-- Witness for C7 (amended) at a concrete three-sentence body. -/
theorem C7_summary_amended_witness :
    generateSummaryDefault ("one. two. three".toList) =
      List.intercalate ['.', ' ']
        ((splitDotSpace ("one. two. three".toList)).take 2) ++ ['.'] :=
  (C7_summary_amended ("one. two. three".toList)).1 (by decide)

/-- Membership in an insertion step of the signal sort. -/
theorem mem_insertSigDesc (a x : PromoterSignal) (l : List PromoterSignal) :
    a ∈ insertSigDesc x l ↔ a = x ∨ a ∈ l := by
  induction l with
  | nil => simp [insertSigDesc]
  | cons y ys ih =>
    unfold insertSigDesc
    split_ifs with h
    · simp
    · rw [List.mem_cons, ih, List.mem_cons]
      tauto

/-- Sorting the signals preserves membership. -/
theorem mem_sortSigsDesc (a : PromoterSignal) (l : List PromoterSignal) :
    a ∈ sortSigsDesc l ↔ a ∈ l := by
  induction l with
  | nil => simp [sortSigsDesc]
  | cons x xs ih =>
    show a ∈ insertSigDesc x (sortSigsDesc xs) ↔ _
    rw [mem_insertSigDesc, ih, List.mem_cons]

/-- Inserting into a change-descending list keeps it descending. -/
theorem pairwise_insertSigDesc (x : PromoterSignal) (l : List PromoterSignal)
    (hl : l.Pairwise fun a b => b.promoterChange ≤ a.promoterChange) :
    (insertSigDesc x l).Pairwise fun a b => b.promoterChange ≤ a.promoterChange := by
  induction l with
  | nil => simp [insertSigDesc]
  | cons y ys ih =>
    rw [List.pairwise_cons] at hl
    unfold insertSigDesc
    split_ifs with h
    · rw [List.pairwise_cons]
      refine ⟨?_, List.pairwise_cons.mpr hl⟩
      intro b hb
      rcases List.mem_cons.mp hb with rfl | hb'
      · exact h
      · exact le_trans (hl.1 b hb') h
    · rw [List.pairwise_cons]
      refine ⟨?_, ih hl.2⟩
      intro b hb
      rcases (mem_insertSigDesc b x ys).mp hb with rfl | hb'
      · exact le_of_lt (lt_of_not_ge h)
      · exact hl.1 b hb'

/-- The sorted signal list is descending in `promoterChange`. -/
theorem pairwise_sortSigsDesc (l : List PromoterSignal) :
    (sortSigsDesc l).Pairwise fun a b => b.promoterChange ≤ a.promoterChange := by
  induction l with
  | nil => simp [sortSigsDesc]
  | cons x xs ih => exact pairwise_insertSigDesc x _ ih

/-- Snapshot insertion adds one to the length. -/
theorem length_insertSnapDesc (x : Snapshot) (l : List Snapshot) :
    (insertSnapDesc x l).length = l.length + 1 := by
  induction l with
  | nil => rfl
  | cons y ys ih =>
    unfold insertSnapDesc
    split_ifs with h
    · rfl
    · simp [ih]

/-- Sorting snapshots preserves the length. -/
theorem length_sortSnapsDesc (l : List Snapshot) :
    (sortSnapsDesc l).length = l.length := by
  induction l with
  | nil => rfl
  | cons x xs ih =>
    show (insertSnapDesc x (sortSnapsDesc xs)).length = _
    rw [length_insertSnapDesc, ih, List.length_cons]

/-- When the sorted history starts with two snapshots, the per-stock step is
the pair body. -/
theorem promoterSignalFor_eq_pair (today days : ℤ) (threshold : ℚ)
    (sd : StockData) (latest previous : Snapshot) (rest : List Snapshot)
    (hs : sortSnapsDesc sd.snapshots = latest :: previous :: rest) :
    promoterSignalFor today days threshold sd =
      promoterPairSignal today days threshold sd.stockId latest previous := by
  unfold promoterSignalFor
  rw [hs]

/-- Sell-side analogue of `promoterSignalFor_eq_pair`. -/
theorem promoterSellSignalFor_eq_pair (today days : ℤ) (threshold : ℚ)
    (h : HoldingWithHistory) (latest previous : Snapshot) (rest : List Snapshot)
    (hs : sortSnapsDesc h.snapshots = latest :: previous :: rest) :
    promoterSellSignalFor today days threshold h =
      promoterSellPairSignal today days threshold h.stockId latest previous := by
  unfold promoterSellSignalFor
  rw [hs]

/-- An emitted BUY signal carries a change at least the threshold. -/
theorem promoterSignalFor_some_prop (today days : ℤ) (threshold : ℚ)
    (sd : StockData) (sig : PromoterSignal)
    (h : promoterSignalFor today days threshold sd = some sig) :
    threshold ≤ sig.promoterChange ∧ sig.signal = "BUY" := by
  unfold promoterSignalFor at h
  cases hs : sortSnapsDesc sd.snapshots with
  | nil => rw [hs] at h; simp at h
  | cons latest rest =>
    cases rest with
    | nil => rw [hs] at h; simp at h
    | cons previous rest2 =>
      rw [hs] at h
      have h' : promoterPairSignal today days threshold sd.stockId latest previous =
          some sig := h
      unfold promoterPairSignal at h'
      split_ifs at h' with h1 h2
      cases h'
      exact ⟨h2, rfl⟩

/-- Sorting a two-snapshot history that is already newest-first is the
identity. -/
theorem sortSnapsDesc_pair (x y : Snapshot) (h : x.quarterEndDate ≥ y.quarterEndDate) :
    sortSnapsDesc [x, y] = [x, y] := by
  unfold sortSnapsDesc
  rw [List.foldr_cons, List.foldr_cons, List.foldr_nil,
    show insertSnapDesc y [] = [y] from rfl]
  unfold insertSnapDesc
  rw [if_pos h]

/-- Sorted two-snapshot form of the stale counterexample stock. -/
theorem staleStock_sorted :
    sortSnapsDesc staleStock.snapshots = [staleSnapL, staleSnapP] := by
  show sortSnapsDesc [staleSnapL, staleSnapP] = _
  exact sortSnapsDesc_pair _ _ (by norm_num [staleSnapL, staleSnapP])

/-- Counterexample to C5 as stated: `staleStock` has two snapshots with
promoter holding rising from 45.0 to 47.5 (change 2.5, at least the
threshold 1.0), yet `get_promoter_increased_stocks` with a 90-day window on
day 0 emits nothing, because the latest quarter ended 100 days ago and the
loop skips stocks whose latest quarter predates the cutoff. -/
theorem C5_counterexample :
    staleStock.snapshots.length = 2 ∧
    (sortSnapsDesc staleStock.snapshots).map Snapshot.promoterHolding =
      [95/2, 45] ∧
    (95/2 : ℚ) - 45 = 5/2 ∧ (1 : ℚ) ≤ 5/2 ∧
    getPromoterIncreasedStocks 0 90 1 [staleStock] = [] := by
  refine ⟨rfl, ?_, by norm_num, by norm_num, ?_⟩
  · rw [staleStock_sorted]
    rfl
  · have hnone : promoterSignalFor 0 90 1 staleStock = none := by
      rw [promoterSignalFor_eq_pair 0 90 1 staleStock _ _ [] staleStock_sorted]
      unfold promoterPairSignal
      rw [if_pos (by norm_num [staleSnapL])]
    unfold getPromoterIncreasedStocks
    rw [List.filterMap_cons, hnone]
    rfl

/-- The spec's worked confidence: ratio 2.5 falls in the 80-band. -/
theorem calcConfidence_two_point_five : calcConfidence (5/2) 1 = 80 := by
  unfold calcConfidence
  rw [show |(5 : ℚ)/2| = 5/2 from abs_of_nonneg (by norm_num)]
  rw [if_neg (by norm_num), if_pos (by norm_num)]

/-- C5 amended: for a stock whose latest snapshot lies inside the lookback
window, a BUY signal with the banded confidence is emitted exactly when the
promoter increase meets the threshold; stocks with fewer than two snapshots
yield nothing; held stocks inside the window get a SELL signal when the
decrease meets the threshold; confidence follows the ratio bands 3, 2, 1.5;
the output is sorted descending by change, and every emitted signal has
change at least the threshold (hence the order is by magnitude for positive
thresholds); the spec's 45.0-to-47.5 example yields change 2.5 and a BUY
signal with confidence 80. -/
theorem C5_promoter_signals (today days : ℤ) (threshold : ℚ) (sd : StockData)
    (data : List StockData) (hh : HoldingWithHistory) :
    (∀ latest previous rest,
      sortSnapsDesc sd.snapshots = latest :: previous :: rest →
      today - days ≤ latest.quarterEndDate →
      ((threshold ≤ latest.promoterHolding - previous.promoterHolding →
          promoterSignalFor today days threshold sd = some
            { stockId := sd.stockId
              latestPromoter := latest.promoterHolding
              previousPromoter := previous.promoterHolding
              promoterChange := latest.promoterHolding - previous.promoterHolding
              latestDate := latest.quarterEndDate
              previousDate := previous.quarterEndDate
              signal := "BUY"
              confidence := calcConfidence
                (latest.promoterHolding - previous.promoterHolding) threshold }) ∧
        (latest.promoterHolding - previous.promoterHolding < threshold →
          promoterSignalFor today days threshold sd = none))) ∧
    (sd.snapshots.length < 2 → promoterSignalFor today days threshold sd = none) ∧
    (∀ latest previous rest,
      sortSnapsDesc hh.snapshots = latest :: previous :: rest →
      today - days ≤ latest.quarterEndDate →
      latest.promoterHolding - previous.promoterHolding ≤ -threshold →
      ∃ sig, promoterSellSignalFor today days threshold hh = some sig ∧
        sig.signal = "SELL" ∧
        sig.promoterChange = latest.promoterHolding - previous.promoterHolding ∧
        sig.confidence = calcConfidence
          (|latest.promoterHolding - previous.promoterHolding|) threshold) ∧
    (∀ change th : ℚ,
      (3 ≤ |change| / th → calcConfidence change th = 90) ∧
      (2 ≤ |change| / th → |change| / th < 3 → calcConfidence change th = 80) ∧
      (3/2 ≤ |change| / th → |change| / th < 2 → calcConfidence change th = 70) ∧
      (|change| / th < 3/2 → calcConfidence change th = 60)) ∧
    (getPromoterIncreasedStocks today days threshold data).Pairwise
      (fun a b => b.promoterChange ≤ a.promoterChange) ∧
    (∀ sig ∈ getPromoterIncreasedStocks today days threshold data,
      threshold ≤ sig.promoterChange ∧ sig.signal = "BUY") ∧
    (calcConfidence (5/2) 1 = 80 ∧
      promoterSignalFor 0 90 1 exampleStock = some
        { stockId := 2, latestPromoter := 95/2, previousPromoter := 45,
          promoterChange := 5/2, latestDate := -10, previousDate := -100,
          signal := "BUY", confidence := 80 }) := by
  refine ⟨?_, ?_, ?_, ?_, pairwise_sortSigsDesc _, ?_, ?_, ?_⟩
  · intro latest previous rest hs hwin
    rw [promoterSignalFor_eq_pair today days threshold sd latest previous rest hs]
    unfold promoterPairSignal
    rw [if_neg (by omega)]
    constructor
    · intro hth
      rw [if_pos hth]
    · intro hlt
      rw [if_neg (by exact not_le.mpr hlt)]
  · intro hlen
    unfold promoterSignalFor
    cases hs : sortSnapsDesc sd.snapshots with
    | nil => rfl
    | cons a rest =>
      cases rest with
      | nil => rfl
      | cons b rest2 =>
        exfalso
        have := length_sortSnapsDesc sd.snapshots
        rw [hs] at this
        simp at this
        omega
  · intro latest previous rest hs hwin hth
    rw [promoterSellSignalFor_eq_pair today days threshold hh latest previous rest hs]
    unfold promoterSellPairSignal
    rw [if_neg (by omega), if_pos hth]
    exact ⟨_, rfl, rfl, rfl, rfl⟩
  · intro change th
    refine ⟨?_, ?_, ?_, ?_⟩
    · intro h1
      unfold calcConfidence
      rw [if_pos h1]
    · intro h1 h2
      unfold calcConfidence
      rw [if_neg (by exact not_le.mpr h2), if_pos h1]
    · intro h1 h2
      unfold calcConfidence
      rw [if_neg (by push_neg; linarith), if_neg (by exact not_le.mpr h2), if_pos h1]
    · intro h1
      unfold calcConfidence
      rw [if_neg (by push_neg; linarith), if_neg (by push_neg; linarith),
        if_neg (by exact not_le.mpr h1)]
  · intro sig hsig
    unfold getPromoterIncreasedStocks at hsig
    rw [mem_sortSigsDesc] at hsig
    obtain ⟨sd', _, hsome⟩ := List.mem_filterMap.mp hsig
    exact promoterSignalFor_some_prop today days threshold sd' sig hsome
  · exact calcConfidence_two_point_five
  · have hsort : sortSnapsDesc exampleStock.snapshots = [exSnapL, exSnapP] := by
      show sortSnapsDesc [exSnapL, exSnapP] = _
      exact sortSnapsDesc_pair _ _ (by norm_num [exSnapL, exSnapP])
    rw [promoterSignalFor_eq_pair 0 90 1 exampleStock exSnapL exSnapP [] hsort]
    unfold promoterPairSignal
    rw [if_neg (by norm_num [exSnapL]), if_pos (by norm_num [exSnapL, exSnapP])]
    have h52 : exSnapL.promoterHolding - exSnapP.promoterHolding = 5/2 := by
      norm_num [exSnapL, exSnapP]
    rw [h52, calcConfidence_two_point_five]
    norm_num [exampleStock, exSnapL, exSnapP]

/-- Every signal emitted by the order detector is an ORDER_WIN whose stock
had no recent saved ORDER_WIN row. -/
theorem detectNewOrders_mem_prop (today lb : ℤ) (articles : List ArticleN)
    (db : List Opp) (o : Opp) (ho : o ∈ detectNewOrders today lb articles db) :
    o.oppType = "ORDER_WIN" ∧
    (db.any fun x => x.stockId == o.stockId && x.oppType == "ORDER_WIN" &&
      decide (today - 7 ≤ x.signalDate)) = false := by
  unfold detectNewOrders at ho
  obtain ⟨a, ha, hmem⟩ := List.mem_flatMap.mp ho
  by_cases hk : articleHasOrderKeyword a = true
  · rw [if_pos hk] at hmem
    obtain ⟨st, hst, hsome⟩ := List.mem_filterMap.mp hmem
    by_cases hex : (db.any fun x =>
        x.stockId == st.stockId && x.oppType == "ORDER_WIN" &&
        decide (today - 7 ≤ x.signalDate)) = true
    · rw [if_pos hex] at hsome
      exact Option.noConfusion hsome
    · rw [if_neg hex] at hsome
      cases hsome
      exact ⟨rfl, Bool.eq_false_iff.mpr hex⟩
  · rw [if_neg hk] at hmem
    simp at hmem

/-- C3 amended: the order detector is idempotent for signals dated inside
its 7-day dedup window: if a first run over saved rows `db` emits a signal
whose date is within 7 days of today, a second run on identical inputs with
the first run's output saved emits nothing for that stock.  (The price-dip
detector has no such guard; see the counterexample.) -/
theorem C3_new_orders_dedup (today lb : ℤ) (articles : List ArticleN)
    (db : List Opp) (o : Opp)
    (ho : o ∈ detectNewOrders today lb articles db)
    (hwin : today - 7 ≤ o.signalDate) :
    ∀ o' ∈ detectNewOrders today lb articles
        (db ++ detectNewOrders today lb articles db),
      o'.stockId ≠ o.stockId := by
  intro o' ho' heq
  have h1 := detectNewOrders_mem_prop today lb articles db o ho
  have h2 := detectNewOrders_mem_prop today lb articles
    (db ++ detectNewOrders today lb articles db) o' ho'
  have htrue : ((db ++ detectNewOrders today lb articles db).any fun x =>
      x.stockId == o'.stockId && x.oppType == "ORDER_WIN" &&
      decide (today - 7 ≤ x.signalDate)) = true := by
    rw [List.any_eq_true]
    refine ⟨o, List.mem_append_right _ ho, ?_⟩
    rw [heq]
    simp [h1.1, hwin]
  rw [h2.2] at htrue
  exact Bool.noConfusion htrue

/-- The order article used by the C3 witness. -/
def orderArticle : ArticleN :=
  { title := "company won order".toList, content := "".toList,
    sentiment := "POSITIVE", publishedDate := 0, mentionedStocks := [cexStock] }

/-- The ORDER_WIN signal the first run emits on the witness data. -/
def firstOrderWin : Opp :=
  { stockId := 1, oppType := "ORDER_WIN", signalDate := 0,
    signalStrength := "MODERATE", priceAtSignal := some 100,
    percentageChange := none, isActive := true, expiresAt := 14 }

/-- Witness for C3 (amended): on the concrete one-article data the first
run emits the ORDER_WIN signal dated today, and the second run with that
signal saved emits nothing at all. -/
theorem C3_new_orders_dedup_witness :
    detectNewOrders 0 30 [orderArticle]
      ([] ++ detectNewOrders 0 30 [orderArticle] []) = [] := by
  have hthm := C3_new_orders_dedup 0 30 [orderArticle] [] firstOrderWin
    (by
      rw [show detectNewOrders 0 30 [orderArticle] [] = [firstOrderWin] from rfl]
      exact List.mem_singleton.mpr rfl)
    (by norm_num [firstOrderWin])
  rfl

/-- Counterexample to C3 as stated: with the active PRICE_DIP signal of the
first invocation already saved, re-running `detect_price_dips` on identical
input data emits the very same active PRICE_DIP signal again for the same
stock — the detector never consults the saved rows. -/
theorem C3_counterexample :
    firstRunDip.isActive = true ∧ firstRunDip.oppType = "PRICE_DIP" ∧
    firstRunDip.stockId = 1 ∧
    detectPriceDips 0 5 7 [cexStock] [negArticle1, negArticle2] [firstRunDip] =
      [firstRunDip] := by
  refine ⟨rfl, rfl, rfl, ?_⟩
  have hcount : negativeNewsCount 0 7 1 [negArticle1, negArticle2] = 2 := by
    decide
  have hfil : ([cexStock].filter fun s =>
      s.currentPrice.isSome && decide ((0 : ℤ) - 7 ≤ s.priceUpdatedAt)) =
      [cexStock] := rfl
  unfold detectPriceDips
  rw [hfil]
  norm_num [List.filterMap_cons, hcount, cexStock, firstRunDip, min_def]

/-- Witness for C5 (amended) at the spec's worked example. -/
theorem C5_promoter_signals_witness :
    promoterSignalFor 0 90 1 exampleStock = some
      { stockId := 2, latestPromoter := 95/2, previousPromoter := 45,
        promoterChange := 5/2, latestDate := -10, previousDate := -100,
        signal := "BUY", confidence := 80 } :=
  (C5_promoter_signals 0 90 1 exampleStock []
    { stockId := 0, snapshots := [], pnl := 0 }).2.2.2.2.2.2.2

end StockAI
